import Mathlib

/-!
Verification of the PharmaGuard pharmacogenomics analytical core.

Shallow embedding of the VCF parser (`src/lib/vcfParser.ts`, provided as
`src/unnamed/part_001`) and the pharmacogenomics knowledge base and report
generator (`src/lib/pharmacogenomics.ts`).  TypeScript string operations are
modelled by executable Lean functions (`jsTrim`, `jsParseInt`, ...) matching
ECMAScript semantics; machine numbers are modelled as `Int`/`Nat`/`ℚ`
(JavaScript float imprecision on huge integer literals is not modelled; none
of the verified properties depends on it).  All functions are total, which in
particular witnesses the "never throws" clauses of the specification.
-/

-- ─── ECMAScript string primitives ────────────────────────────────────────────

/-- ECMAScript WhiteSpace / LineTerminator characters (the common ones). -/
def isJsWhitespace (c : Char) : Bool :=
  c == ' ' || c == '\t' || c == '\n' || c == '\r' || c == '\x0b' || c == '\x0c' ||
  c == '\u00A0' || c == '\uFEFF' || c == '\u2028' || c == '\u2029'

/-- Model of `String.prototype.trim`. -/
def jsTrim (s : String) : String :=
  ⟨((s.data.dropWhile isJsWhitespace).reverse.dropWhile isJsWhitespace).reverse⟩

/-- Model of `String.prototype.substring(0, n)`. -/
def jsTake (s : String) (n : Nat) : String :=
  ⟨s.data.take n⟩

/-- Drop the first `n` characters (structural version of `String.drop`). -/
def strDrop (s : String) (n : Nat) : String :=
  ⟨s.data.drop n⟩

/-- `s.startsWith(p)` (structural version of `String.startsWith`). -/
def strStartsWith (s p : String) : Bool :=
  p.data.isPrefixOf s.data

/-- `s.endsWith(p)` (structural version of `String.endsWith`). -/
def strEndsWith (s p : String) : Bool :=
  p.data.reverse.isPrefixOf s.data.reverse

/-- `s.toLowerCase()` restricted to ASCII, as `String.toLower` is. -/
def strToLower (s : String) : String :=
  ⟨s.data.map Char.toLower⟩

/-- Replace every occurrence of the character `a` by `b`. -/
def replaceChar (a b : Char) (s : String) : String :=
  ⟨s.data.map (fun c => if c == a then b else c)⟩

/-- Character-level splitter underlying `splitOnChar`; `acc` holds the
current fragment reversed. -/
def splitCharAux (sep : Char) : List Char → List Char → List String
  | [], acc => [⟨acc.reverse⟩]
  | c :: rest, acc =>
    if c == sep then ⟨acc.reverse⟩ :: splitCharAux sep rest []
    else splitCharAux sep rest (c :: acc)

/-- `s.split(sep)` for a single-character separator, with ECMAScript
semantics (the empty string yields `[""]`, separators at the ends yield
empty fragments).  Agrees with `String.splitOn` on one-character patterns. -/
def splitOnChar (sep : Char) (s : String) : List String :=
  splitCharAux sep s.data []

/-- `xs.join(sep)` (structural version of `String.intercalate`). -/
def joinWith (sep : String) : List String → String
  | [] => ""
  | [x] => x
  | x :: y :: rest => x ++ sep ++ joinWith sep (y :: rest)

/-- Numeric value of a list of decimal digits. -/
def digitsVal (ds : List Char) : Nat :=
  ds.foldl (fun acc c => acc * 10 + (c.toNat - '0'.toNat)) 0

/-- Model of `parseInt(s, 10)`: skip leading whitespace, optional sign, then
the longest prefix of decimal digits; `none` models `NaN` (no digits found).
Trailing garbage is ignored, exactly as in ECMAScript. -/
def jsParseInt (s : String) : Option Int :=
  let cs := s.data.dropWhile isJsWhitespace
  let signed : Int × List Char :=
    match cs with
    | '-' :: rest => (-1, rest)
    | '+' :: rest => (1, rest)
    | _ => (1, cs)
  let ds := signed.2.takeWhile Char.isDigit
  if ds.isEmpty then none else some (signed.1 * (digitsVal ds : Int))

/-- Model of `gt.split(/[/|]/)` (also used as `gt.replace(/\|/g,"/").split("/")`
in `resolveGenotype`; the two are equivalent for the single characters involved). -/
def splitSlashPipe (s : String) : List String :=
  splitOnChar '/' (replaceChar '|' '/' s)

/-- Model of `rawText.split(/\r?\n/)`: split on LF and strip one carriage
return left at the end of a fragment by a CRLF pair. -/
def vcfLines (rawText : String) : List String :=
  (splitOnChar '\n' rawText).map (fun l => if strEndsWith l "\r" then ⟨l.data.dropLast⟩ else l)

-- ─── Data model ──────────────────────────────────────────────────────────────

/-- One row of the RSID → star-allele catalog (`RSID_MAPPING` entries). -/
structure RSIDMapping where
  rsid : String
  gene : String
  ref : String
  alt : String
  star_allele_ref : String
  star_allele_alt : String
  function_impact : String
deriving DecidableEq, Repr, Inhabited

/-- One CPIC guideline rule (`CPIC_RULES` entries). Confidence scores are
exact rationals (the source uses JavaScript number literals such as 0.97). -/
structure CPICRule where
  gene : String
  drug : String
  phenotype : String
  diplotype_examples : List String
  risk_label : String
  severity : String
  confidence_score : ℚ
  action : String
  dosage_adjustment : String
  summary : String
  mechanism : String
deriving DecidableEq, Repr, Inhabited

/-- One parsed VCF data line (the parser's `VCFRecord`). -/
structure VCFRecord where
  chromosome : String
  position : Int
  id : String
  ref : String
  alt : String
  qual : String
  filter : String
  info : String
  format : String
  genotype : String
  resolvedGenotype : String
deriving DecidableEq, Repr, Inhabited

/-- A variant matched against the catalog (`DetectedVariant`). -/
structure DetectedVariant where
  rsid : String
  genotype : String
  starAllele : String
  chromosome : String
  position : Int
  ref : String
  alt : String
deriving DecidableEq, Repr, Inhabited

/-- `Map<GeneName, DetectedVariant[]>` modelled as an insertion-ordered
association list, as JavaScript `Map` is insertion-ordered. -/
abbrev GeneMap := List (String × List DetectedVariant)

/-- `Map.prototype.get`: first binding of the key, if any. -/
def mapGet (m : GeneMap) (g : String) : Option (List DetectedVariant) :=
  (m.find? (fun p => p.1 == g)).map (fun p => p.2)

/-- `Map.prototype.set`: overwrite the first binding of the key in place,
or append a new binding. -/
def mapSet (m : GeneMap) (g : String) (v : List DetectedVariant) : GeneMap :=
  match m with
  | [] => [(g, v)]
  | p :: rest => if p.1 == g then (g, v) :: rest else p :: mapSet rest g v

/-- Result of `parseVCF` (`VCFParseResult`).  `sampleId` is optional in the
TypeScript interface (`analyzeVCF` guards it with `??`), though `parseVCF`
always produces one. -/
structure VCFParseResult where
  records : List VCFRecord
  variantsByGene : GeneMap
  totalVariants : Nat
  vcfVersion : String
  sampleId : Option String
  errors : List String
deriving DecidableEq, Repr, Inhabited

-- ─── Static tables (transcribed from `src/lib/pharmacogenomics.ts`) ──────────

def TARGET_GENES : List String :=
  ["CYP2D6", "CYP2C19", "CYP2C9", "SLCO1B1", "TPMT", "DPYD"]

def GENE_TO_DRUG : List (String × String) :=
  [("CYP2D6", "CODEINE"), ("CYP2C19", "CLOPIDOGREL"), ("CYP2C9", "WARFARIN"),
   ("SLCO1B1", "SIMVASTATIN"), ("TPMT", "AZATHIOPRINE"), ("DPYD", "FLUOROURACIL")]

/-- `GENE_TO_DRUG[gene]`; `none` models the `undefined` a non-`GeneName` key
would produce. -/
def geneToDrug (g : String) : Option String :=
  (GENE_TO_DRUG.find? (fun p => p.1 == g)).map (fun p => p.2)

def RSID_MAPPING : List RSIDMapping := [
  ⟨"rs3892097",  "CYP2D6",  "C", "T",   "*1",  "*4",        "no_function"⟩,
  ⟨"rs35742686", "CYP2D6",  "C", "del", "*1",  "*3",        "no_function"⟩,
  ⟨"rs5030655",  "CYP2D6",  "A", "del", "*1",  "*6",        "no_function"⟩,
  ⟨"rs16947",    "CYP2D6",  "G", "A",   "*1",  "*2",        "normal"⟩,
  ⟨"rs1135840",  "CYP2D6",  "G", "C",   "*1",  "*10",       "reduced"⟩,
  ⟨"rs4244285",  "CYP2C19", "G", "A",   "*1",  "*2",        "no_function"⟩,
  ⟨"rs4986893",  "CYP2C19", "G", "A",   "*1",  "*3",        "no_function"⟩,
  ⟨"rs12248560", "CYP2C19", "C", "T",   "*1",  "*17",       "increased"⟩,
  ⟨"rs1799853",  "CYP2C9",  "C", "T",   "*1",  "*2",        "reduced"⟩,
  ⟨"rs1057910",  "CYP2C9",  "A", "C",   "*1",  "*3",        "no_function"⟩,
  ⟨"rs28371686", "CYP2C9",  "G", "A",   "*1",  "*5",        "reduced"⟩,
  ⟨"rs4149056",  "SLCO1B1", "T", "C",   "*1a", "*5",        "reduced"⟩,
  ⟨"rs2306283",  "SLCO1B1", "A", "G",   "*1a", "*1b",       "normal"⟩,
  ⟨"rs1800462",  "TPMT",    "C", "A",   "*1",  "*2",        "no_function"⟩,
  ⟨"rs1800460",  "TPMT",    "C", "A",   "*1",  "*3B",       "no_function"⟩,
  ⟨"rs1142345",  "TPMT",    "T", "C",   "*1",  "*3C",       "no_function"⟩,
  ⟨"rs3918290",  "DPYD",    "C", "T",   "*1",  "*2A",       "no_function"⟩,
  ⟨"rs55886062", "DPYD",    "C", "T",   "*1",  "*13",       "no_function"⟩,
  ⟨"rs67376798", "DPYD",    "A", "T",   "*1",  "HapB3",     "reduced"⟩,
  ⟨"rs75017182", "DPYD",    "C", "T",   "*1",  "c.1236G>A", "reduced"⟩]

def CPIC_RULES : List CPICRule := [
  { gene := "CYP2D6", drug := "CODEINE", phenotype := "PM",
    diplotype_examples := ["*3/*4", "*4/*4", "*3/*3", "*4/*6", "*4/*5"],
    risk_label := "Toxic", severity := "critical", confidence_score := 0.97,
    action := "Avoid codeine. Use an alternative opioid not metabolized by CYP2D6.",
    dosage_adjustment := "Contraindicated. Consider morphine or oxycodone with appropriate dose adjustments.",
    summary := "This patient is a CYP2D6 Poor Metabolizer. Codeine cannot be adequately converted to morphine, leading to accumulation of codeine and severe CNS/respiratory toxicity risk.",
    mechanism := "Codeine is a prodrug requiring CYP2D6-mediated O-demethylation to morphine for analgesic effect. In Poor Metabolizers, this conversion is absent, causing codeine accumulation. Paradoxically, ineffective analgesia combined with higher codeine plasma concentrations creates toxicity risk including respiratory depression." },
  { gene := "CYP2D6", drug := "CODEINE", phenotype := "IM",
    diplotype_examples := ["*1/*4", "*1/*5", "*2/*4", "*10/*4"],
    risk_label := "Adjust Dosage", severity := "moderate", confidence_score := 0.88,
    action := "Use codeine with caution at reduced dose or consider an alternative.",
    dosage_adjustment := "Reduce starting dose by 25–50%. Monitor closely for inadequate analgesia and adverse effects.",
    summary := "This patient is a CYP2D6 Intermediate Metabolizer. Reduced CYP2D6 activity results in lower-than-expected morphine conversion, potentially diminishing analgesic efficacy.",
    mechanism := "With one functional and one non-functional (or reduced-function) CYP2D6 allele, enzymatic capacity for codeine O-demethylation is reduced ~50%. This leads to subtherapeutic morphine concentrations and variable analgesic response." },
  { gene := "CYP2D6", drug := "CODEINE", phenotype := "NM",
    diplotype_examples := ["*1/*1", "*1/*2", "*2/*2"],
    risk_label := "Safe", severity := "none", confidence_score := 0.95,
    action := "Standard codeine therapy. Use label-recommended dosing.",
    dosage_adjustment := "No dosage adjustment required.",
    summary := "Normal CYP2D6 activity detected. Codeine is expected to be metabolized to morphine at the standard rate, providing adequate analgesia with normal risk profile.",
    mechanism := "Normal CYP2D6 enzyme activity produces expected morphine concentrations from codeine prodrug conversion, resulting in standard analgesic efficacy and safety profile as defined in the drug label." },
  { gene := "CYP2D6", drug := "CODEINE", phenotype := "URM",
    diplotype_examples := ["*1/*1xN", "*2/*2xN", "*1/*2xN"],
    risk_label := "Toxic", severity := "high", confidence_score := 0.94,
    action := "Avoid codeine. Ultra-rapid conversion to morphine risks life-threatening toxicity.",
    dosage_adjustment := "Contraindicated. Use non-CYP2D6 metabolized opioids such as fentanyl or buprenorphine.",
    summary := "This patient is a CYP2D6 Ultra-Rapid Metabolizer. Excessive conversion of codeine to morphine results in dangerously high morphine plasma levels, risking respiratory depression and death.",
    mechanism := "CYP2D6 gene duplication amplifies enzymatic capacity for O-demethylation, converting codeine to morphine far exceeding normal rates. Even standard doses can produce morphine concentrations equivalent to a morphine overdose, particularly dangerous in pediatric patients and nursing mothers (FDA Black Box Warning)." },
  { gene := "CYP2C19", drug := "CLOPIDOGREL", phenotype := "PM",
    diplotype_examples := ["*2/*2", "*2/*3", "*3/*3"],
    risk_label := "Ineffective", severity := "high", confidence_score := 0.96,
    action := "Avoid clopidogrel. Use an alternative antiplatelet agent.",
    dosage_adjustment := "Contraindicated for high-risk ACS/PCI patients. Switch to prasugrel or ticagrelor per cardiologist guidance.",
    summary := "CYP2C19 Poor Metabolizer. Clopidogrel cannot be bioactivated to its active thiol metabolite, resulting in inadequate platelet inhibition and significantly elevated MACE risk.",
    mechanism := "Clopidogrel is a prodrug requiring two-step CYP2C19-mediated hepatic oxidation to generate the active thiol metabolite that irreversibly inhibits P2Y12 receptors. In Poor Metabolizers, this activation step is absent, leaving platelets uninhibited and increasing risk of stent thrombosis and major cardiovascular events." },
  { gene := "CYP2C19", drug := "CLOPIDOGREL", phenotype := "IM",
    diplotype_examples := ["*1/*2", "*1/*3", "*2/*17"],
    risk_label := "Adjust Dosage", severity := "moderate", confidence_score := 0.85,
    action := "Consider alternative antiplatelet therapy, especially in high-risk cardiovascular patients.",
    dosage_adjustment := "Standard dose may be used in low-risk patients. High-risk patients (ACS, PCI) should receive prasugrel or ticagrelor.",
    summary := "Intermediate CYP2C19 function reduces clopidogrel bioactivation. Antiplatelet response may be suboptimal, particularly in high-risk cardiac scenarios.",
    mechanism := "One reduced-function allele diminishes hepatic two-step bioactivation of clopidogrel to its active metabolite. Residual enzyme activity provides partial platelet inhibition, but response is less predictable compared to normal metabolizers." },
  { gene := "CYP2C19", drug := "CLOPIDOGREL", phenotype := "NM",
    diplotype_examples := ["*1/*1"],
    risk_label := "Safe", severity := "none", confidence_score := 0.95,
    action := "Standard clopidogrel therapy. Proceed with label-recommended dosing.",
    dosage_adjustment := "No dosage adjustment required.",
    summary := "Normal CYP2C19 function. Clopidogrel will be bioactivated at the expected rate, providing standard platelet inhibition.",
    mechanism := "Normal CYP2C19 enzymatic activity ensures efficient two-step hepatic bioactivation of clopidogrel to its active thiol metabolite, resulting in adequate P2Y12 receptor inhibition." },
  { gene := "CYP2C19", drug := "CLOPIDOGREL", phenotype := "RM",
    diplotype_examples := ["*1/*17", "*17/*17"],
    risk_label := "Safe", severity := "low", confidence_score := 0.82,
    action := "Standard therapy. Monitor for enhanced antiplatelet effect.",
    dosage_adjustment := "No adjustment required but monitor for bleeding. Rapid metabolizers may have increased active metabolite exposure.",
    summary := "Rapid CYP2C19 metabolizer. Enhanced clopidogrel bioactivation may increase active metabolite levels; generally beneficial but monitor for excess bleeding.",
    mechanism := "CYP2C19*17 variant increases transcription of CYP2C19 enzyme, accelerating the two-step bioactivation of clopidogrel. This typically improves antiplatelet efficacy but may increase bleeding risk at standard doses." },
  { gene := "CYP2C9", drug := "WARFARIN", phenotype := "PM",
    diplotype_examples := ["*2/*3", "*3/*3", "*3/*5"],
    risk_label := "Adjust Dosage", severity := "high", confidence_score := 0.95,
    action := "Start with significantly reduced warfarin dose. Intensive INR monitoring required.",
    dosage_adjustment := "Reduce initial dose by 50–75%. Target INR 2.0–3.0. INR checks every 3–5 days until stable. Consider genotype-guided dosing algorithms (IWPC, Gage).",
    summary := "CYP2C9 Poor Metabolizer. Severely reduced warfarin (S-warfarin) clearance dramatically increases bleeding risk. Requires substantially reduced dosing and intensive monitoring.",
    mechanism := "S-warfarin (the more potent enantiomer) is primarily metabolized by CYP2C9. Loss-of-function variants (*2/*3, *3/*3) severely impair S-warfarin clearance, causing accumulation of the active anticoagulant. This leads to supratherapeutic INR and elevated major bleeding risk. CPIC recommends genotype-guided initial dosing." },
  { gene := "CYP2C9", drug := "WARFARIN", phenotype := "IM",
    diplotype_examples := ["*1/*2", "*1/*3", "*2/*2"],
    risk_label := "Adjust Dosage", severity := "moderate", confidence_score := 0.91,
    action := "Reduce initial warfarin dose. More frequent INR monitoring during initiation.",
    dosage_adjustment := "Reduce initial dose by 20–30%. Genotype-guided dose algorithms recommended (IWPC equation). Monitor INR closely for first 4 weeks.",
    summary := "CYP2C9 Intermediate Metabolizer. Reduced S-warfarin clearance requires dosage reduction to prevent over-anticoagulation during initiation.",
    mechanism := "One reduced-function CYP2C9 allele partially impairs S-warfarin hydroxylation, reducing clearance compared to normal metabolizers. Patients typically require lower maintenance doses (10–30% less) and are at increased bleeding risk during warfarin initiation." },
  { gene := "CYP2C9", drug := "WARFARIN", phenotype := "NM",
    diplotype_examples := ["*1/*1"],
    risk_label := "Safe", severity := "none", confidence_score := 0.93,
    action := "Standard warfarin initiation. Use label-recommended starting dose.",
    dosage_adjustment := "No genotype-based adjustment required. Follow standard INR monitoring protocol.",
    summary := "Normal CYP2C9 function. Standard warfarin dosing is appropriate. Maintain standard INR monitoring per clinical guidelines.",
    mechanism := "Normal CYP2C9 activity provides expected S-warfarin clearance. Standard dosing algorithms apply without genotype-based modification." },
  { gene := "SLCO1B1", drug := "SIMVASTATIN", phenotype := "PM",
    diplotype_examples := ["*5/*5", "*5/*15", "*15/*15"],
    risk_label := "Toxic", severity := "high", confidence_score := 0.93,
    action := "Avoid simvastatin 40–80mg. High myopathy risk. Switch to alternative statin.",
    dosage_adjustment := "If statin therapy required, use rosuvastatin ≤20mg or pravastatin ≤40mg (lower SLCO1B1 transport dependency). Avoid all high-dose simvastatin.",
    summary := "SLCO1B1 Poor Function detected. Severely impaired hepatic simvastatin uptake causes 4–5× higher plasma simvastatin acid exposure, dramatically elevating myopathy and rhabdomyolysis risk.",
    mechanism := "SLCO1B1 (*5 variant, rs4149056) encodes OATP1B1, the primary hepatic uptake transporter for simvastatin acid. Loss-of-function variants severely reduce hepatic clearance of active simvastatin acid, causing systemic accumulation in muscle tissue. This activates mitochondrial membrane disruption and ATP depletion, manifesting as myopathy and potentially life-threatening rhabdomyolysis." },
  { gene := "SLCO1B1", drug := "SIMVASTATIN", phenotype := "IM",
    diplotype_examples := ["*1a/*5", "*1a/*15", "*1b/*5"],
    risk_label := "Adjust Dosage", severity := "moderate", confidence_score := 0.88,
    action := "Use lower simvastatin dose (≤20mg) or alternative statin. Counsel on myopathy symptoms.",
    dosage_adjustment := "Limit simvastatin to 20mg/day maximum. Monitor CK levels. Consider rosuvastatin or pravastatin as alternatives with better SLCO1B1 tolerance.",
    summary := "Intermediate SLCO1B1 function. Moderately elevated simvastatin acid systemic exposure increases myopathy risk above baseline. Dose limitation and monitoring recommended.",
    mechanism := "Heterozygous SLCO1B1 *5 or *15 reduces OATP1B1 transport capacity by approximately 50%, causing intermediate elevation of systemic simvastatin acid concentrations. Myopathy risk is 2–3× baseline but manageable with dose restriction." },
  { gene := "SLCO1B1", drug := "SIMVASTATIN", phenotype := "NM",
    diplotype_examples := ["*1a/*1a", "*1a/*1b", "*1b/*1b"],
    risk_label := "Safe", severity := "none", confidence_score := 0.92,
    action := "Standard simvastatin therapy. Follow label-recommended dosing.",
    dosage_adjustment := "No adjustment required. Standard dosing appropriate.",
    summary := "Normal SLCO1B1 transporter function. Simvastatin acid is efficiently cleared by OATP1B1, maintaining normal plasma concentrations with standard myopathy risk.",
    mechanism := "Normal OATP1B1 activity ensures adequate hepatic first-pass extraction of simvastatin acid, preventing systemic accumulation. Myopathy risk remains at population baseline." },
  { gene := "TPMT", drug := "AZATHIOPRINE", phenotype := "PM",
    diplotype_examples := ["*2/*3A", "*3A/*3A", "*3B/*3C", "*2/*3C"],
    risk_label := "Toxic", severity := "critical", confidence_score := 0.98,
    action := "Avoid azathioprine/6-MP. Life-threatening myelosuppression risk.",
    dosage_adjustment := "Contraindicated at standard doses. If use is unavoidable, reduce dose by >90% (e.g., 10% of standard) with extremely close CBC monitoring. Consult hematology.",
    summary := "TPMT Poor Metabolizer. Absent TPMT activity causes massive accumulation of cytotoxic 6-thioguanine nucleotides (6-TGNs), resulting in severe, potentially fatal myelosuppression.",
    mechanism := "TPMT catalyzes S-methylation of thiopurine drugs, inactivating them. With absent enzyme activity, azathioprine/6-MP is shunted entirely toward 6-TGN production via HGPRT. Accumulation of 6-TGNs in hematopoietic cells causes profound bone marrow suppression, leading to leukopenia, anemia, and thrombocytopenia. CPIC assigns highest recommendation strength for dose avoidance." },
  { gene := "TPMT", drug := "AZATHIOPRINE", phenotype := "IM",
    diplotype_examples := ["*1/*2", "*1/*3A", "*1/*3B", "*1/*3C"],
    risk_label := "Adjust Dosage", severity := "moderate", confidence_score := 0.92,
    action := "Reduce azathioprine dose by 30–70%. Monitor CBC frequently.",
    dosage_adjustment := "Start at 50% of standard dose. Titrate based on CBC response and 6-TGN levels. Weekly CBC for first 2 months, then monthly.",
    summary := "TPMT Intermediate Metabolizer. Reduced TPMT activity leads to higher 6-TGN accumulation. Dose reduction and enhanced monitoring required to prevent myelosuppression.",
    mechanism := "Heterozygous TPMT variants reduce enzymatic activity by ~50%, partially impairing thiopurine inactivation. This results in moderately elevated 6-TGN concentrations that may cause clinically significant bone marrow suppression, particularly during early therapy when dose-response relationships are established." },
  { gene := "TPMT", drug := "AZATHIOPRINE", phenotype := "NM",
    diplotype_examples := ["*1/*1"],
    risk_label := "Safe", severity := "none", confidence_score := 0.95,
    action := "Standard azathioprine therapy. Follow disease-specific dosing guidelines.",
    dosage_adjustment := "No adjustment required. Standard dosing and routine CBC monitoring appropriate.",
    summary := "Normal TPMT activity. Azathioprine is metabolized at the expected rate with standard myelosuppression risk.",
    mechanism := "Normal TPMT enzymatic activity provides adequate S-methylation inactivation of azathioprine metabolites, maintaining 6-TGN concentrations within the therapeutic window." },
  { gene := "DPYD", drug := "FLUOROURACIL", phenotype := "PM",
    diplotype_examples := ["*2A/*2A", "*13/*13", "*2A/*13"],
    risk_label := "Toxic", severity := "critical", confidence_score := 0.98,
    action := "Avoid fluorouracil/capecitabine. Potentially fatal toxicity risk.",
    dosage_adjustment := "Contraindicated. If fluorouracil is the only option, reduce dose by >75% under intensive hematologic and clinical monitoring in a specialist setting.",
    summary := "DPYD Poor Metabolizer. Near-complete absence of DPYD enzyme causes massive 5-FU accumulation, leading to life-threatening GI, hematologic, and neurologic toxicity.",
    mechanism := "DPYD (dihydropyrimidine dehydrogenase) is the primary catabolic enzyme for 5-fluorouracil, metabolizing ~80–85% of systemic 5-FU to inactive DHFU. Loss-of-function variants eliminate this clearance pathway, causing 5-FU systemic exposure to increase 2–4 fold. This results in severe mucositis, neutropenia, hand-foot syndrome, and potentially fatal neurotoxicity." },
  { gene := "DPYD", drug := "FLUOROURACIL", phenotype := "IM",
    diplotype_examples := ["*1/*2A", "*1/*13", "*1/HapB3"],
    risk_label := "Adjust Dosage", severity := "high", confidence_score := 0.93,
    action := "Reduce fluorouracil/capecitabine starting dose by 50%. Escalate if tolerated.",
    dosage_adjustment := "Start at 50% of standard dose. If no serious toxicity after Cycle 1, dose may be escalated based on clinical tolerance and PK data. Toxicity monitoring every cycle.",
    summary := "DPYD Intermediate Metabolizer. Reduced DPYD activity substantially elevates 5-FU systemic exposure. A 50% starting dose reduction is mandated by CPIC to prevent severe toxicity.",
    mechanism := "Heterozygous DPYD loss-of-function variants reduce dihydropyrimidine dehydrogenase activity by approximately 50%, impairing the primary 5-FU catabolic pathway. Systemic 5-FU accumulation is intermediate between normal metabolizers and poor metabolizers, requiring significant dose reduction to maintain safety while preserving antitumor efficacy." },
  { gene := "DPYD", drug := "FLUOROURACIL", phenotype := "NM",
    diplotype_examples := ["*1/*1"],
    risk_label := "Safe", severity := "none", confidence_score := 0.94,
    action := "Standard fluorouracil therapy. Proceed with standard dosing and monitoring.",
    dosage_adjustment := "No adjustment required. Follow oncology protocol-specific dosing.",
    summary := "Normal DPYD enzymatic activity. 5-FU is metabolized at the expected rate with standard toxicity profile.",
    mechanism := "Normal DPYD activity efficiently catabolizes ~80% of systemic 5-FU to inactive metabolites, maintaining drug concentrations within the standard therapeutic window. Expected toxicity profile per treatment protocol." }]

-- ─── VCF parser (`src/lib/vcfParser.ts`) ─────────────────────────────────────

/-- Resolution of one genotype index token against the allele table
(the body of the `indices.map` callback in `resolveGenotype`):
`alleles[i] ?? "."`, with `"."` for `NaN` and for any out-of-range
(including negative) index. -/
def resolveTok (alleles : List String) (idx : String) : String :=
  match jsParseInt idx with
  | none => "."
  | some i => if i < 0 then "." else alleles.getD i.toNat "."

/-- `resolveGenotype`: resolve a raw GT field such as `"0|1"` against
`[ref, ...alt.split(",")]`, joining the resolved letters with `/`. -/
def resolveGenotype (ref alt gt : String) : String :=
  let alleles := ref :: splitOnChar ',' alt
  let indices := splitSlashPipe gt
  let resolved := indices.map (resolveTok alleles)
  joinWith "/" resolved

/-- `extractGT`: locate the `GT` token in the FORMAT column and pick the
corresponding SAMPLE field, defaulting to `"./."`. -/
def extractGT (format sample : String) : String :=
  let formatFields := splitOnChar ':' format
  let sampleFields := splitOnChar ':' sample
  match formatFields.findIdx? (fun f => f == "GT") with
  | none => "./."
  | some i => sampleFields.getD i "./."

/-- Mutable locals of `parseVCF` while scanning lines. -/
structure ParseState where
  errors : List String
  records : List VCFRecord
  vcfVersion : String
  sampleId : String
deriving DecidableEq, Repr, Inhabited

/-- One iteration of the `for (const line of lines)` loop in `parseVCF`. -/
def parseLine (st : ParseState) (line : String) : ParseState :=
  let trimmed := jsTrim line
  if trimmed = "" then st
  else if strStartsWith trimmed "##" then
    if strStartsWith trimmed "##fileformat=VCF" then
      -- JS `replace` drops the first occurrence of "##fileformat=", which the
      -- guard pins to the start of the line.
      { st with vcfVersion := strDrop trimmed 13 }
    else st
  else if strStartsWith trimmed "#CHROM" then
    let cols := splitOnChar '\t' trimmed
    if 9 < cols.length then
      let s := jsTrim (cols.getD 9 "")
      { st with sampleId := if s = "" then "SAMPLE_001" else s }
    else st
  else
    let cols := splitOnChar '\t' trimmed
    if cols.length < 8 then
      { st with errors := st.errors ++
          ["Skipped malformed line (" ++ toString cols.length ++ " columns): " ++ jsTake trimmed 60] }
    else
      match jsParseInt (cols.getD 1 "") with
      | none =>
        { st with errors := st.errors ++ ["Invalid position: " ++ cols.getD 1 ""] }
      | some position =>
        let format := cols.getD 8 "GT"
        let sample := cols.getD 9 "0/0"
        let rawGT := extractGT format sample
        let idCol := cols.getD 2 ""
        { st with records := st.records ++
            [{ chromosome := cols.getD 0 "", position := position,
               id := if idCol = "." then "" else idCol,
               ref := cols.getD 3 "", alt := cols.getD 4 "", qual := cols.getD 5 "",
               filter := cols.getD 6 "", info := cols.getD 7 "", format := format,
               genotype := rawGT,
               resolvedGenotype := resolveGenotype (cols.getD 3 "") (cols.getD 4 "") rawGT }] }

/-- One iteration of the record loop in `mapVariantsToGenes`. -/
def mapVariantsStep (mp : GeneMap) (record : VCFRecord) : GeneMap :=
  if record.id = "" then mp
  else
    match RSID_MAPPING.find? (fun m => strToLower m.rsid == strToLower record.id) with
    | none => mp
    | some mapping =>
      let geneVariants := (mapGet mp mapping.gene).getD []
      let hasAlt := !(strStartsWith record.genotype "0/0") && !(strStartsWith record.genotype "0|0")
      let isHomAlt := record.genotype == "1/1" || record.genotype == "1|1"
      let starAllele :=
        if !hasAlt then mapping.star_allele_ref
        else if isHomAlt then mapping.star_allele_alt ++ "/" ++ mapping.star_allele_alt
        else mapping.star_allele_ref ++ "/" ++ mapping.star_allele_alt
      mapSet mp mapping.gene (geneVariants ++
        [{ rsid := record.id, genotype := record.resolvedGenotype, starAllele := starAllele,
           chromosome := record.chromosome, position := record.position,
           ref := record.ref, alt := record.alt }])

/-- `mapVariantsToGenes`: initialize an empty list per target gene, then
cross-reference every record against the catalog, case-insensitively on the
identifier.  The `errors` argument is threaded through unchanged, as in the
source (which never pushes to it here). -/
def mapVariantsToGenes (records : List VCFRecord) (errors : List String) : GeneMap :=
  let _ := errors
  let init : GeneMap := TARGET_GENES.map (fun g => (g, []))
  records.foldl mapVariantsStep init

/-- `parseVCF`: scan all lines, then map the surviving records to genes. -/
def parseVCF (rawText : String) : VCFParseResult :=
  let st := (vcfLines rawText).foldl parseLine
    { errors := [], records := [], vcfVersion := "unknown", sampleId := "SAMPLE_001" }
  { records := st.records,
    variantsByGene := mapVariantsToGenes st.records st.errors,
    totalVariants := st.records.length,
    vcfVersion := st.vcfVersion,
    sampleId := some st.sampleId,
    errors := st.errors }

-- ─── Phenotype inference engine (`src/lib/pharmacogenomics.ts`) ──────────────

/-- The four counters returned by `countAlleleFunctions`. -/
structure AlleleCounts where
  functional : Nat
  reduced : Nat
  noFunction : Nat
  increased : Nat
deriving DecidableEq, Repr, Inhabited

/-- The `switch (mapping.function_impact)` of `countAlleleFunctions`;
the `default` arm increments `functional`, like the `"normal"` arm. -/
def impactBump (impact : String) (c : AlleleCounts) : AlleleCounts :=
  if impact = "no_function" then { c with noFunction := c.noFunction + 1 }
  else if impact = "reduced" then { c with reduced := c.reduced + 1 }
  else if impact = "increased" then { c with increased := c.increased + 1 }
  else { c with functional := c.functional + 1 }

/-- The inner `for (const allele of alleles)` body of `countAlleleFunctions`. -/
def alleleStep (mapping : RSIDMapping) (c : AlleleCounts) (allele : String) : AlleleCounts :=
  if allele = mapping.ref then { c with functional := c.functional + 1 }
  else if allele = mapping.alt ∨ (allele ≠ mapping.ref ∧ allele ≠ ".") then
    impactBump mapping.function_impact c
  else c

/-- The outer `for (const variant of variants)` body of `countAlleleFunctions`:
a variant with no catalog mapping is skipped (`continue`). -/
def variantStep (c : AlleleCounts) (variant : DetectedVariant) : AlleleCounts :=
  match RSID_MAPPING.find? (fun m => m.rsid == variant.rsid) with
  | none => c
  | some mapping => (splitSlashPipe variant.genotype).foldl (alleleStep mapping) c

/-- `countAlleleFunctions`, including the pure-wildtype fallback that forces
`functional = 2` when all four counters stayed at zero. -/
def countAlleleFunctions (variants : List DetectedVariant) : AlleleCounts :=
  let c := variants.foldl variantStep ⟨0, 0, 0, 0⟩
  if c.functional = 0 ∧ c.reduced = 0 ∧ c.noFunction = 0 ∧ c.increased = 0 then
    { c with functional := 2 }
  else c

/-- `inferPhenotype`: the per-gene decision tables over the allele counts. -/
def inferPhenotype (gene : String) (variants : List DetectedVariant) : String :=
  if variants.length = 0 then "NM"
  else
    let c := countAlleleFunctions variants
    if gene = "CYP2D6" ∨ gene = "CYP2C19" ∨ gene = "CYP2C9" ∨ gene = "TPMT" ∨ gene = "DPYD" then
      if 2 ≤ c.noFunction then "PM"
      else if c.noFunction = 1 ∧ 1 ≤ c.reduced then "PM"
      else if c.noFunction = 1 ∧ 1 ≤ c.functional then "IM"
      else if 2 ≤ c.reduced then "IM"
      else if c.reduced = 1 ∧ 1 ≤ c.functional then "IM"
      else if 2 ≤ c.increased then "URM"
      else if c.increased = 1 ∧ 1 ≤ c.functional then "RM"
      else "NM"
    else if gene = "SLCO1B1" then
      if 2 ≤ c.noFunction ∨ 2 ≤ c.reduced then "PM"
      else if 1 ≤ c.noFunction ∨ 1 ≤ c.reduced then "IM"
      else "NM"
    else "Unknown"

/-- `[...new Set(xs)]`: distinct elements in order of first appearance. -/
def dedupFirst (l : List String) : List String :=
  l.foldl (fun acc x => if x ∈ acc then acc else acc ++ [x]) []

/-- `inferDiplotype`: collapse the detected alternate star alleles into a
two-allele diplotype string. -/
def inferDiplotype (gene : String) (variants : List DetectedVariant) : String :=
  if variants.length = 0 then
    if gene = "SLCO1B1" then "*1a/*1a" else "*1/*1"
  else
    let starAlleles := variants.filterMap (fun v =>
      match RSID_MAPPING.find? (fun m => m.rsid == v.rsid) with
      | none => none
      | some mapping =>
        let gt := splitSlashPipe v.genotype
        let hasAlt := gt.any (fun a => a ≠ mapping.ref ∧ a ≠ ".")
        if hasAlt then some mapping.star_allele_alt else none)
    let uniqueAlleles := dedupFirst starAlleles
    let wildtype := if gene = "SLCO1B1" then "*1a" else "*1"
    if uniqueAlleles.length = 0 then wildtype ++ "/" ++ wildtype
    else if uniqueAlleles.length = 1 then wildtype ++ "/" ++ uniqueAlleles.getD 0 ""
    else uniqueAlleles.getD 0 "" ++ "/" ++ uniqueAlleles.getD 1 ""

-- ─── Report generation (`src/lib/pharmacogenomics.ts`) ───────────────────────

structure RiskAssessment where
  risk_label : String
  confidence_score : ℚ
  severity : String
deriving DecidableEq, Repr, Inhabited

structure PharmacogenomicProfile where
  primary_gene : String
  diplotype : String
  phenotype : String
  detected_variants : List DetectedVariant
deriving DecidableEq, Repr, Inhabited

structure ClinicalRecommendation where
  action : String
  dosage_adjustment : String
deriving DecidableEq, Repr, Inhabited

structure LLMExplanation where
  summary : String
  mechanism : String
deriving DecidableEq, Repr, Inhabited

structure QualityMetrics where
  vcf_parsing_success : Bool
  total_variants_parsed : Nat
  target_variants_found : Nat
deriving DecidableEq, Repr, Inhabited

structure PharmacogenomicReport where
  patient_id : String
  drug : String
  timestamp : String
  risk_assessment : RiskAssessment
  pharmacogenomic_profile : PharmacogenomicProfile
  clinical_recommendation : ClinicalRecommendation
  llm_generated_explanation : LLMExplanation
  quality_metrics : QualityMetrics
deriving DecidableEq, Repr, Inhabited

/-- The rule lookup of `generateReport`:
`CPIC_RULES.find(exact) ?? CPIC_RULES.find(NM rule)`.  The source then applies
a non-null assertion, but keeps reading fields with `rule?.x ?? default`, so
`none` (the rule being absent at runtime) is representable. -/
def matchedRule (gene drug phenotype : String) : Option CPICRule :=
  match CPIC_RULES.find? (fun r => r.gene == gene && r.drug == drug && r.phenotype == phenotype) with
  | some r => some r
  | none => CPIC_RULES.find? (fun r => r.gene == gene && r.drug == drug && r.phenotype == "NM")

/-- `generateReport`.  `now` stands for `new Date().toISOString()`, the only
non-deterministic input of the source function. -/
def generateReport (patientId gene : String) (variants : List DetectedVariant)
    (totalVariants : Nat) (now : String) : PharmacogenomicReport :=
  let drug := (geneToDrug gene).getD "undefined"
  let phenotype := inferPhenotype gene variants
  let diplotype := inferDiplotype gene variants
  let rule := matchedRule gene drug phenotype
  { patient_id := patientId,
    drug := drug,
    timestamp := now,
    risk_assessment :=
      { risk_label := (rule.map (fun r => r.risk_label)).getD "Unknown",
        confidence_score :=
          if 0 < variants.length then (rule.map (fun r => r.confidence_score)).getD 0.5 else 0.72,
        severity := (rule.map (fun r => r.severity)).getD "none" },
    pharmacogenomic_profile :=
      { primary_gene := gene, diplotype := diplotype, phenotype := phenotype,
        detected_variants := variants },
    clinical_recommendation :=
      { action := (rule.map (fun r => r.action)).getD
          "No CPIC guideline available for this variant combination.",
        dosage_adjustment := (rule.map (fun r => r.dosage_adjustment)).getD
          "Consult pharmacogenomics specialist." },
    llm_generated_explanation :=
      { summary := (rule.map (fun r => r.summary)).getD
          ("No specific pharmacogenomic variant detected for " ++ gene ++ ". Standard dosing applies."),
        mechanism := (rule.map (fun r => r.mechanism)).getD
          (gene ++ " encodes a key drug-metabolizing enzyme. No actionable variant was identified in this analysis.") },
    quality_metrics :=
      { vcf_parsing_success := true,
        total_variants_parsed := totalVariants,
        target_variants_found := variants.length } }

/-- `analyzeVCF`: one report per target gene, in `TARGET_GENES` order. -/
def analyzeVCF (parseResult : VCFParseResult) (patientId : Option String)
    (now : String) : List PharmacogenomicReport :=
  let pid := patientId.getD (parseResult.sampleId.getD "PATIENT_001")
  TARGET_GENES.map (fun gene =>
    let variants := (mapGet parseResult.variantsByGene gene).getD []
    generateReport pid gene variants parseResult.totalVariants now)

-- ─── Specification-side definitions (for refinement claims) ──────────────────

/-- Claim C4's wording of the functional-impact increment:
`no_function→noFunction`, `reduced→reduced`, `increased→increased`,
`normal`/unrecognized→`functional`. -/
def impactBumpSpec (impact : String) (c : AlleleCounts) : AlleleCounts :=
  if impact = "no_function" then { c with noFunction := c.noFunction + 1 }
  else if impact = "reduced" then { c with reduced := c.reduced + 1 }
  else if impact = "increased" then { c with increased := c.increased + 1 }
  else { c with functional := c.functional + 1 }

/-- Claim C4's wording of the per-token rule: a token equal to the mapping's
reference letter increments `functional`; otherwise — unless the token is
`"."` — the counter selected by the functional-impact class is incremented. -/
def alleleStepSpec (mapping : RSIDMapping) (c : AlleleCounts) (allele : String) : AlleleCounts :=
  if allele = mapping.ref then { c with functional := c.functional + 1 }
  else if allele = "." then c
  else impactBumpSpec mapping.function_impact c

/-- Claim C4's wording of the per-variant rule: a variant with no catalog
mapping contributes nothing; otherwise every token of the genotype split on
`/` or `|` is processed by `alleleStepSpec`. -/
def variantStepSpec (c : AlleleCounts) (variant : DetectedVariant) : AlleleCounts :=
  match RSID_MAPPING.find? (fun m => m.rsid == variant.rsid) with
  | none => c
  | some mapping => (splitSlashPipe variant.genotype).foldl (alleleStepSpec mapping) c

/-- Claim C4's description of the allele-function counting, including the
force-`functional = 2` fallback when all four counters stay at zero. -/
def countSpecC4 (variants : List DetectedVariant) : AlleleCounts :=
  let c := variants.foldl variantStepSpec ⟨0, 0, 0, 0⟩
  if c.functional = 0 ∧ c.reduced = 0 ∧ c.noFunction = 0 ∧ c.increased = 0 then
    { c with functional := 2 }
  else c

/-- Claim C3's decision table over the allele-function counts, written from
the claim's words (priority rows for the five enzyme genes, the SLCO1B1
table, `Unknown` for any other gene name). -/
def phenotypeTableSpec (gene : String) (c : AlleleCounts) : String :=
  if gene ∈ ["CYP2D6", "CYP2C19", "CYP2C9", "TPMT", "DPYD"] then
    if 2 ≤ c.noFunction then "PM"
    else if c.noFunction = 1 ∧ 1 ≤ c.reduced then "PM"
    else if c.noFunction = 1 ∧ 1 ≤ c.functional then "IM"
    else if 2 ≤ c.reduced then "IM"
    else if c.reduced = 1 ∧ 1 ≤ c.functional then "IM"
    else if 2 ≤ c.increased then "URM"
    else if c.increased = 1 ∧ 1 ≤ c.functional then "RM"
    else "NM"
  else if gene = "SLCO1B1" then
    if 2 ≤ c.noFunction ∨ 2 ≤ c.reduced then "PM"
    else if 1 ≤ c.noFunction ∨ 1 ≤ c.reduced then "IM"
    else "NM"
  else "Unknown"

-- ─── Line classification (for the parser robustness claim) ───────────────────

/-- A line that `parseVCF` treats as a data line: non-blank after trimming,
not metadata (`##`), not the header (`#CHROM`). -/
def isDataLine (l : String) : Bool :=
  let t := jsTrim l
  !(t = "") && !(strStartsWith t "##") && !(strStartsWith t "#CHROM")

/-- A data line's defect: fewer than 8 tab-separated columns, or a POS column
that does not parse as an integer. -/
def isBadData (l : String) : Bool :=
  let cols := splitOnChar '\t' (jsTrim l)
  decide (cols.length < 8) || (jsParseInt (cols.getD 1 "")).isNone

/-- A line that `parseVCF` skips with a recorded error. -/
def isSkippedData (l : String) : Bool :=
  isDataLine l && isBadData l

/-- A line that `parseVCF` turns into a record. -/
def isKeptData (l : String) : Bool :=
  isDataLine l && !isBadData l

-- ─── Concrete inputs used by counterexamples and witnesses ───────────────────

/-- The single-data-line VCF input of the CYP2C9 scenario claim. -/
def c1Input : String :=
  "chr10\t96702047\trs1799853\tC\tT\t.\tPASS\t.\tGT\t1/1"

/-- The same input with the marker identifier upper-cased. -/
def c2Input : String :=
  "chr10\t96702047\tRS1799853\tC\tT\t.\tPASS\t.\tGT\t1/1"

/-- A detected variant whose identifier matches the catalog only up to case. -/
def c2Variant : DetectedVariant :=
  ⟨"RS1799853", "T/T", "*2/*2", "chr10", 96702047, "C", "T"⟩

/-- The detected variant produced by the scenario input (rs1799853, `1/1`). -/
def c5Variant : DetectedVariant :=
  ⟨"rs1799853", "T/T", "*2/*2", "chr10", 96702047, "C", "T"⟩

/-- A CYP2C19 variant homozygous for the increased-function allele *17,
driving the phenotype to URM (which has no dedicated CPIC rule). -/
def c7Variant : DetectedVariant :=
  ⟨"rs12248560", "T/T", "*17/*17", "chr10", 94781859, "C", "T"⟩

-- ─── Helper lemmas ───────────────────────────────────────────────────────────

/-- The code's impact switch agrees with the claim's wording verbatim. -/
theorem impactBump_eq_spec : impactBump = impactBumpSpec := rfl

/-- Every catalog row has an alternate allele different from `"."`; this is
what makes the code's `allele === alt || (allele !== ref && allele !== ".")`
guard coincide with the claim's "unless the token is a dot" wording. -/
theorem catalog_alt_ne_dot : ∀ m ∈ RSID_MAPPING, m.alt ≠ "." := by decide

theorem alleleStep_eq_spec (m : RSIDMapping) (hm : m ∈ RSID_MAPPING)
    (c : AlleleCounts) (a : String) : alleleStep m c a = alleleStepSpec m c a := by
  have halt : m.alt ≠ "." := catalog_alt_ne_dot m hm
  unfold alleleStep alleleStepSpec
  by_cases h1 : a = m.ref
  · simp [h1]
  · rw [if_neg h1, if_neg h1]
    by_cases h2 : a = "."
    · subst h2
      have hcond : ¬("." = m.alt ∨ ("." ≠ m.ref ∧ "." ≠ ".")) := by
        rintro (h | ⟨_, hne⟩)
        · exact halt h.symm
        · exact hne rfl
      rw [if_neg hcond, if_pos rfl]
    · rw [if_pos (Or.inr ⟨h1, h2⟩), if_neg h2, impactBump_eq_spec]

theorem variantStep_eq_spec (c : AlleleCounts) (v : DetectedVariant) :
    variantStep c v = variantStepSpec c v := by
  unfold variantStep variantStepSpec
  cases hfind : RSID_MAPPING.find? (fun m => m.rsid == v.rsid) with
  | none => rfl
  | some m =>
    exact List.foldl_ext _ _ c
      (fun c' a _ => alleleStep_eq_spec m (List.mem_of_find?_eq_some hfind) c' a)

-- ─── Claim theorems ──────────────────────────────────────────────────────────

/-- C4: `countAlleleFunctions` counts exactly as the claim describes: for each
catalog-mapped variant, every `/`- or `|`-separated token of the resolved
genotype bumps `functional` when it equals the mapping's reference letter and
otherwise — unless it is `"."` — the counter chosen by the functional-impact
class; unmapped variants contribute nothing; and an all-zero outcome forces
`functional = 2`. -/
theorem C4_allele_counting (variants : List DetectedVariant) :
    countAlleleFunctions variants = countSpecC4 variants := by
  unfold countAlleleFunctions countSpecC4
  rw [List.foldl_ext variantStep variantStepSpec _ (fun c v _ => variantStep_eq_spec c v)]

/-- C3: `inferPhenotype` returns `NM` on an empty detected-variant list
(skipping allele counting), and otherwise applies the claim's priority
decision table — the five-enzyme table, the SLCO1B1 table, and `Unknown`
for any other gene name — to the allele-function counts. -/
theorem C3_phenotype_decision_table (gene : String) (variants : List DetectedVariant) :
    inferPhenotype gene variants =
      if variants = [] then "NM"
      else phenotypeTableSpec gene (countAlleleFunctions variants) := by
  cases variants with
  | nil => rfl
  | cons v vs =>
    rw [if_neg (List.cons_ne_nil v vs)]
    unfold inferPhenotype phenotypeTableSpec
    rw [if_neg (by simp)]
    simp only [List.mem_cons, List.not_mem_nil, or_false]

/-- C8: `resolveGenotype` is total by construction (it never raises); its
output is the `/`-join of one resolved token per `/`- or `|`-separated index
token of the input, so the allele count is preserved; a non-numeric index
token resolves to `"."`, as does any index outside the bounds of the allele
table `[ref, ...alts]` (including negative indices). -/
theorem C8_resolve_genotype_total (ref alt gt : String) :
    resolveGenotype ref alt gt =
      joinWith "/" ((splitSlashPipe gt).map (resolveTok (ref :: splitOnChar ',' alt))) ∧
    ((splitSlashPipe gt).map (resolveTok (ref :: splitOnChar ',' alt))).length =
      (splitSlashPipe gt).length ∧
    (∀ tok : String, jsParseInt tok = none →
      resolveTok (ref :: splitOnChar ',' alt) tok = ".") ∧
    (∀ (tok : String) (i : Int), jsParseInt tok = some i →
      i < 0 ∨ (ref :: splitOnChar ',' alt).length ≤ i.toNat →
      resolveTok (ref :: splitOnChar ',' alt) tok = ".") := by
  refine ⟨rfl, List.length_map _ _, ?_, ?_⟩
  · intro tok h
    unfold resolveTok
    rw [h]
  · intro tok i h hout
    unfold resolveTok
    rw [h]
    show (if i < 0 then "." else (ref :: splitOnChar ',' alt).getD i.toNat ".") = "."
    rcases hout with h1 | h2
    · rw [if_pos h1]
    · by_cases h1 : i < 0
      · rw [if_pos h1]
      · rw [if_neg h1]
        exact List.getD_eq_default _ _ h2

/-- Witness for C8 at `ref="C"`, `alt="T"`: the non-numeric token `"x"` and
the out-of-range index `"7"` both resolve to `"."`. -/
theorem C8_resolve_genotype_total_witness :
    resolveTok ("C" :: splitOnChar ',' "T") "x" = "." ∧
    resolveTok ("C" :: splitOnChar ',' "T") "7" = "." :=
  ⟨(C8_resolve_genotype_total "C" "T" "0|1").2.2.1 "x" (by decide),
   (C8_resolve_genotype_total "C" "T" "0|1").2.2.2 "7" 7 (by decide) (Or.inr (by decide))⟩

/-- Per-line effect of the parse loop on the record and error accumulators:
a kept data line appends exactly one record, a skipped data line appends
exactly one error, and every other line touches neither. -/
theorem parseLine_lens (st : ParseState) (l : String) :
    ((parseLine st l).records).length = st.records.length + (if isKeptData l then 1 else 0) ∧
    ((parseLine st l).errors).length = st.errors.length + (if isSkippedData l then 1 else 0) := by
  unfold parseLine isKeptData isSkippedData isDataLine isBadData
  by_cases h1 : jsTrim l = ""
  · simp [h1]
  · by_cases h2 : strStartsWith (jsTrim l) "##"
    · by_cases h2f : strStartsWith (jsTrim l) "##fileformat=VCF" <;>
        simp [h1, h2, h2f]
    · by_cases h3 : strStartsWith (jsTrim l) "#CHROM"
      · by_cases h3c : 9 < (splitOnChar '\t' (jsTrim l)).length <;>
          simp [h1, h2, h3, h3c]
      · by_cases h4 : (splitOnChar '\t' (jsTrim l)).length < 8
        · simp [h1, h2, h3, h4]
        · cases h5 : jsParseInt ((splitOnChar '\t' (jsTrim l)).getD 1 "") <;>
            simp [h1, h2, h3, h4, List.getD_eq_getElem?_getD] at h5 ⊢ <;>
            simp [h5]

/-- Accumulated effect of the parse loop over a list of lines. -/
theorem parseLoop_lens (ls : List String) (st : ParseState) :
    ((ls.foldl parseLine st).records).length = st.records.length + ls.countP isKeptData ∧
    ((ls.foldl parseLine st).errors).length = st.errors.length + ls.countP isSkippedData := by
  induction ls generalizing st with
  | nil => simp
  | cons l ls ih =>
    obtain ⟨h1, h2⟩ := ih (parseLine st l)
    obtain ⟨g1, g2⟩ := parseLine_lens st l
    simp only [List.foldl_cons, List.countP_cons] at *
    constructor
    · rw [h1, g1]
      cases hk : isKeptData l <;> simp [hk] <;> omega
    · rw [h2, g2]
      cases hs : isSkippedData l <;> simp [hs] <;> omega

/-- C6: `parseVCF` is a total function (it never throws); every non-blank
data line with fewer than 8 tab-separated columns or a non-integer POS is
skipped with one message appended to the error list while parsing continues
over all remaining lines, and `totalVariants` (the record count) counts
exactly the data lines that were not skipped. -/
theorem C6_parse_skips_malformed (rawText : String) :
    (parseVCF rawText).totalVariants = (parseVCF rawText).records.length ∧
    (parseVCF rawText).records.length = ((vcfLines rawText).filter isKeptData).length ∧
    (parseVCF rawText).errors.length = ((vcfLines rawText).filter isSkippedData).length := by
  unfold parseVCF
  obtain ⟨h1, h2⟩ := parseLoop_lens (vcfLines rawText)
    { errors := [], records := [], vcfVersion := "unknown", sampleId := "SAMPLE_001" }
  refine ⟨rfl, ?_, ?_⟩ <;>
    simp [h1, h2, List.countP_eq_length_filter]

/-- C9: every report of `analyzeVCF` carries the constant
`quality_metrics.vcf_parsing_success = true`, for every parse result — the
flag never reflects recorded parse errors. -/
theorem C9_parsing_success_constant (pr : VCFParseResult) (pid : Option String)
    (now : String) (rpt : PharmacogenomicReport) (h : rpt ∈ analyzeVCF pr pid now) :
    rpt.quality_metrics.vcf_parsing_success = true := by
  unfold analyzeVCF at h
  simp only [List.mem_map] at h
  obtain ⟨g, hg, rfl⟩ := h
  rfl

/-- Witness for C9 on an input whose parse records an error (the line `"bad"`
has a single column): the first report still has the success flag set. -/
theorem C9_parsing_success_constant_witness :
    (parseVCF "bad").errors ≠ [] ∧
    ((analyzeVCF (parseVCF "bad") (some "P") "t").get
        ⟨0, by decide⟩).quality_metrics.vcf_parsing_success = true :=
  ⟨by decide, C9_parsing_success_constant _ _ _ _ (List.get_mem _ _ _)⟩

/-- The five-enzyme decision tree only produces metabolizer classes. -/
theorem tree5_mem (c : AlleleCounts) :
    (if 2 ≤ c.noFunction then "PM"
     else if c.noFunction = 1 ∧ 1 ≤ c.reduced then "PM"
     else if c.noFunction = 1 ∧ 1 ≤ c.functional then "IM"
     else if 2 ≤ c.reduced then "IM"
     else if c.reduced = 1 ∧ 1 ≤ c.functional then "IM"
     else if 2 ≤ c.increased then "URM"
     else if c.increased = 1 ∧ 1 ≤ c.functional then "RM"
     else "NM") ∈ (["PM", "IM", "NM", "RM", "URM"] : List String) := by
  split_ifs <;> decide

/-- The SLCO1B1 decision tree only produces metabolizer classes. -/
theorem treeS_mem (c : AlleleCounts) :
    (if 2 ≤ c.noFunction ∨ 2 ≤ c.reduced then "PM"
     else if 1 ≤ c.noFunction ∨ 1 ≤ c.reduced then "IM"
     else "NM") ∈ (["PM", "IM", "NM", "RM", "URM"] : List String) := by
  split_ifs <;> decide

/-- For every target gene the phenotype engine can only answer one of the
five metabolizer classes; the `Unknown` default arm needs a gene name
outside the fixed panel. -/
theorem inferPhenotype_mem_of_target (g : String) (hg : g ∈ TARGET_GENES)
    (vs : List DetectedVariant) :
    inferPhenotype g vs ∈ (["PM", "IM", "NM", "RM", "URM"] : List String) := by
  simp only [TARGET_GENES, List.mem_cons, List.not_mem_nil, or_false] at hg
  by_cases h0 : vs.length = 0
  · obtain rfl | rfl | rfl | rfl | rfl | rfl := hg <;>
      (unfold inferPhenotype; rw [if_pos h0]) <;> decide
  · obtain rfl | rfl | rfl | rfl | rfl | rfl := hg <;>
      (unfold inferPhenotype; rw [if_neg h0]) <;>
      first
        | exact tree5_mem (countAlleleFunctions vs)
        | exact treeS_mem (countAlleleFunctions vs)

/-- C10: `analyzeVCF` returns exactly one report per gene of `TARGET_GENES`,
in that fixed order, and every report's phenotype lies in
{PM, IM, NM, RM, URM} — the `Unknown` branch is unreachable through
`analyzeVCF`. -/
theorem C10_reports_per_gene (pr : VCFParseResult) (pid : Option String) (now : String) :
    (analyzeVCF pr pid now).map (fun r => r.pharmacogenomic_profile.primary_gene) =
      TARGET_GENES ∧
    ∀ rpt ∈ analyzeVCF pr pid now,
      rpt.pharmacogenomic_profile.phenotype ∈ (["PM", "IM", "NM", "RM", "URM"] : List String) := by
  constructor
  · rfl
  · intro rpt h
    unfold analyzeVCF at h
    simp only [List.mem_map] at h
    obtain ⟨g, hg, rfl⟩ := h
    exact inferPhenotype_mem_of_target g hg _

/-- Witness for C10 on the empty input: the gene column of the six reports
is `TARGET_GENES` itself and the first report's phenotype is one of the five
metabolizer classes. -/
theorem C10_reports_per_gene_witness :
    (analyzeVCF (parseVCF "") none "t").map (fun r => r.pharmacogenomic_profile.primary_gene) =
      TARGET_GENES ∧
    ((analyzeVCF (parseVCF "") none "t").get
        ⟨0, by decide⟩).pharmacogenomic_profile.phenotype ∈
      (["PM", "IM", "NM", "RM", "URM"] : List String) :=
  ⟨(C10_reports_per_gene _ _ _).1, (C10_reports_per_gene _ _ _).2 _ (List.get_mem _ _ _)⟩

/-- The report's rule-derived fields, read back as `rule?.field ?? default`
over the looked-up rule (all definitional). -/
theorem generateReport_rule_fields (pid gene : String) (variants : List DetectedVariant)
    (total : Nat) (now : String) :
    (generateReport pid gene variants total now).risk_assessment.risk_label =
      ((matchedRule gene ((geneToDrug gene).getD "undefined") (inferPhenotype gene variants)).map
        (fun r => r.risk_label)).getD "Unknown" ∧
    (generateReport pid gene variants total now).risk_assessment.severity =
      ((matchedRule gene ((geneToDrug gene).getD "undefined") (inferPhenotype gene variants)).map
        (fun r => r.severity)).getD "none" ∧
    (generateReport pid gene variants total now).risk_assessment.confidence_score =
      (if 0 < variants.length then
        ((matchedRule gene ((geneToDrug gene).getD "undefined") (inferPhenotype gene variants)).map
          (fun r => r.confidence_score)).getD 0.5
       else 0.72) ∧
    (generateReport pid gene variants total now).clinical_recommendation.action =
      ((matchedRule gene ((geneToDrug gene).getD "undefined") (inferPhenotype gene variants)).map
        (fun r => r.action)).getD "No CPIC guideline available for this variant combination." ∧
    (generateReport pid gene variants total now).clinical_recommendation.dosage_adjustment =
      ((matchedRule gene ((geneToDrug gene).getD "undefined") (inferPhenotype gene variants)).map
        (fun r => r.dosage_adjustment)).getD "Consult pharmacogenomics specialist." ∧
    (generateReport pid gene variants total now).llm_generated_explanation.summary =
      ((matchedRule gene ((geneToDrug gene).getD "undefined") (inferPhenotype gene variants)).map
        (fun r => r.summary)).getD
        ("No specific pharmacogenomic variant detected for " ++ gene ++ ". Standard dosing applies.") ∧
    (generateReport pid gene variants total now).llm_generated_explanation.mechanism =
      ((matchedRule gene ((geneToDrug gene).getD "undefined") (inferPhenotype gene variants)).map
        (fun r => r.mechanism)).getD
        (gene ++ " encodes a key drug-metabolizing enzyme. No actionable variant was identified in this analysis.") :=
  ⟨rfl, rfl, rfl, rfl, rfl, rfl, rfl⟩

/-- C5: for an empty detected-variant list the report carries the fixed
fallback confidence 0.72 (never the matched rule's own score) and
`target_variants_found = 0`; for a non-empty list the confidence equals the
matched rule's fixed score (a rule always matches for the six target genes,
thanks to the NM fallback). -/
theorem C5_confidence_fallback (pid gene : String) (variants : List DetectedVariant)
    (total : Nat) (now : String) (hg : gene ∈ TARGET_GENES) :
    (generateReport pid gene variants total now).quality_metrics.target_variants_found =
      variants.length ∧
    (variants = [] →
      (generateReport pid gene variants total now).risk_assessment.confidence_score = 0.72) ∧
    (matchedRule gene ((geneToDrug gene).getD "undefined")
        (inferPhenotype gene variants)).isSome = true ∧
    (∀ r, matchedRule gene ((geneToDrug gene).getD "undefined")
        (inferPhenotype gene variants) = some r →
      variants ≠ [] →
      (generateReport pid gene variants total now).risk_assessment.confidence_score =
        r.confidence_score) := by
  refine ⟨rfl, ?_, ?_, ?_⟩
  · rintro rfl
    rfl
  · unfold matchedRule
    cases hf : CPIC_RULES.find? (fun r => r.gene == gene &&
        r.drug == (geneToDrug gene).getD "undefined" &&
        r.phenotype == inferPhenotype gene variants) with
    | some r => rfl
    | none =>
      simp only [TARGET_GENES, List.mem_cons, List.not_mem_nil, or_false] at hg
      obtain rfl | rfl | rfl | rfl | rfl | rfl := hg <;> decide
  · intro r hr hne
    have hlen : 0 < variants.length := List.length_pos.mpr hne
    show (if 0 < variants.length then
        ((matchedRule gene ((geneToDrug gene).getD "undefined")
            (inferPhenotype gene variants)).map (fun r => r.confidence_score)).getD 0.5
      else 0.72) = r.confidence_score
    rw [if_pos hlen, hr]
    rfl

/-- Witness for C5: with no CYP2C9 variants the confidence is the 0.72
fallback; with the rs1799853 homozygote it is the matched IM rule's 0.91. -/
theorem C5_confidence_fallback_witness :
    (generateReport "P" "CYP2C9" [] 0 "t").risk_assessment.confidence_score = 0.72 ∧
    (generateReport "P" "CYP2C9" [c5Variant] 1 "t").risk_assessment.confidence_score = 0.91 := by
  constructor
  · exact (C5_confidence_fallback "P" "CYP2C9" [] 0 "t" (by decide)).2.1 rfl
  · have h := (C5_confidence_fallback "P" "CYP2C9" [c5Variant] 1 "t" (by decide)).2.2.2
    have hr : matchedRule "CYP2C9" ((geneToDrug "CYP2C9").getD "undefined")
        (inferPhenotype "CYP2C9" [c5Variant]) = some ((CPIC_RULES.drop 9).headI) := rfl
    exact (h ((CPIC_RULES.drop 9).headI) hr (by simp)).trans rfl

/-- C7: when no rule matches (gene, drug, phenotype) exactly, the report
carries every field of the (gene, drug, NM) rule — label, severity,
confidence, action, dosage adjustment, summary, mechanism; only when that NM
rule is also absent does the report fall back to the placeholder texts. -/
theorem C7_rule_fallback (pid gene : String) (variants : List DetectedVariant)
    (total : Nat) (now : String)
    (hexact : CPIC_RULES.find? (fun r => r.gene == gene &&
        r.drug == (geneToDrug gene).getD "undefined" &&
        r.phenotype == inferPhenotype gene variants) = none) :
    (∀ r, CPIC_RULES.find? (fun r => r.gene == gene &&
        r.drug == (geneToDrug gene).getD "undefined" && r.phenotype == "NM") = some r →
      (generateReport pid gene variants total now).risk_assessment.risk_label = r.risk_label ∧
      (generateReport pid gene variants total now).risk_assessment.severity = r.severity ∧
      (generateReport pid gene variants total now).risk_assessment.confidence_score =
        r.confidence_score ∧
      (generateReport pid gene variants total now).clinical_recommendation.action = r.action ∧
      (generateReport pid gene variants total now).clinical_recommendation.dosage_adjustment =
        r.dosage_adjustment ∧
      (generateReport pid gene variants total now).llm_generated_explanation.summary =
        r.summary ∧
      (generateReport pid gene variants total now).llm_generated_explanation.mechanism =
        r.mechanism) ∧
    (CPIC_RULES.find? (fun r => r.gene == gene &&
        r.drug == (geneToDrug gene).getD "undefined" && r.phenotype == "NM") = none →
      (generateReport pid gene variants total now).risk_assessment.risk_label = "Unknown" ∧
      (generateReport pid gene variants total now).risk_assessment.severity = "none" ∧
      (generateReport pid gene variants total now).clinical_recommendation.action =
        "No CPIC guideline available for this variant combination." ∧
      (generateReport pid gene variants total now).clinical_recommendation.dosage_adjustment =
        "Consult pharmacogenomics specialist.") := by
  have hrule : matchedRule gene ((geneToDrug gene).getD "undefined")
      (inferPhenotype gene variants) =
      CPIC_RULES.find? (fun r => r.gene == gene &&
        r.drug == (geneToDrug gene).getD "undefined" && r.phenotype == "NM") := by
    unfold matchedRule
    rw [hexact]
  obtain ⟨e1, e2, e3, e4, e5, e6, e7⟩ := generateReport_rule_fields pid gene variants total now
  constructor
  · intro r hr
    have hne : variants ≠ [] := by
      rintro rfl
      rw [show inferPhenotype gene [] = "NM" from rfl] at hexact
      rw [hexact] at hr
      cases hr
    have hlen : 0 < variants.length := List.length_pos.mpr hne
    rw [if_pos hlen] at e3
    rw [hrule, hr] at e1 e2 e3 e4 e5 e6 e7
    exact ⟨e1, e2, e3, e4, e5, e6, e7⟩
  · intro hnone
    rw [hrule, hnone] at e1 e2 e4 e5
    exact ⟨e1, e2, e4, e5⟩

/-- Witness for C7: the CYP2C19 *17 homozygote infers URM, which has no
dedicated CLOPIDOGREL rule; the report carries the CYP2C19/CLOPIDOGREL NM
rule's fields. -/
theorem C7_rule_fallback_witness :
    (generateReport "P" "CYP2C19" [c7Variant] 1 "t").risk_assessment.risk_label = "Safe" ∧
    (generateReport "P" "CYP2C19" [c7Variant] 1 "t").risk_assessment.severity = "none" ∧
    (generateReport "P" "CYP2C19" [c7Variant] 1 "t").risk_assessment.confidence_score = 0.95 ∧
    (generateReport "P" "CYP2C19" [c7Variant] 1 "t").clinical_recommendation.action =
      "Standard clopidogrel therapy. Proceed with label-recommended dosing." := by
  have h := (C7_rule_fallback "P" "CYP2C19" [c7Variant] 1 "t" (by decide)).1
    ((CPIC_RULES.drop 6).headI) rfl
  exact ⟨h.1.trans rfl, h.2.1.trans rfl, h.2.2.1.trans rfl, h.2.2.2.1.trans rfl⟩

/-- C1 counterexample: on the scenario input the CYP2C9/WARFARIN report does
NOT have (phenotype PM, diplotype *2/*2, severity high): rs1799853 is a
reduced-function marker, so the homozygote counts reduced = 2, which row 4 of
the decision table maps to IM, and the diplotype deriver joins the wildtype
with the single distinct alternate star allele. -/
theorem C1_scenario_counterexample :
    ((analyzeVCF (parseVCF c1Input) none "t").map (fun r =>
      (r.pharmacogenomic_profile.primary_gene, r.pharmacogenomic_profile.phenotype,
       r.pharmacogenomic_profile.diplotype, r.risk_assessment.risk_label,
       r.risk_assessment.severity)))[2]? ≠
    some ("CYP2C9", "PM", "*2/*2", "Adjust Dosage", "high") := by decide

/-- C1 (amended): for the VCF input whose only data line is
`chr10 96702047 rs1799853 C T . PASS . GT 1/1`, `parseVCF` followed by
`analyzeVCF` produces, for gene CYP2C9 (drug WARFARIN), a report with
phenotype IM, diplotype `*1/*2`, risk label `Adjust Dosage` and severity
`moderate`. -/
theorem C1_scenario_amended :
    ((analyzeVCF (parseVCF c1Input) none "t").map (fun r =>
      (r.pharmacogenomic_profile.primary_gene, r.pharmacogenomic_profile.phenotype,
       r.pharmacogenomic_profile.diplotype, r.risk_assessment.risk_label,
       r.risk_assessment.severity)))[2]? =
    some ("CYP2C9", "IM", "*1/*2", "Adjust Dosage", "moderate") := by decide

/-- C2 counterexample: the phenotype and diplotype are NOT independent of the
identifier's letter case.  `RS1799853` is matched case-insensitively by the
variant-to-gene mapping (one CYP2C9 variant is detected in both runs), but
the case-sensitive re-lookups in the counting and diplotype stages miss it,
yielding NM and `*1/*1` where the lower-case input yields IM and `*1/*2`. -/
theorem C2_case_counterexample :
    ((analyzeVCF (parseVCF c2Input) none "t").map (fun r =>
      (r.pharmacogenomic_profile.phenotype, r.pharmacogenomic_profile.diplotype,
       r.quality_metrics.target_variants_found)))[2]? = some ("NM", "*1/*1", 1) ∧
    ((analyzeVCF (parseVCF c1Input) none "t").map (fun r =>
      (r.pharmacogenomic_profile.phenotype, r.pharmacogenomic_profile.diplotype,
       r.quality_metrics.target_variants_found)))[2]? = some ("IM", "*1/*2", 1) :=
  ⟨by decide, by decide⟩

/-- Setting a key in the gene map makes it readable back (JavaScript
`map.get(k)` after `map.set(k, v)`). -/
theorem mapGet_mapSet (mp : GeneMap) (k : String) (v : List DetectedVariant) :
    mapGet (mapSet mp k v) k = some v := by
  induction mp with
  | nil => simp [mapSet, mapGet]
  | cons p rest ih =>
    unfold mapSet
    by_cases h : p.1 == k
    · rw [if_pos h]
      simp [mapGet]
    · rw [if_neg h]
      unfold mapGet at ih ⊢
      have hstep : List.find? (fun q => q.1 == k) (p :: mapSet rest k v) =
          List.find? (fun q => q.1 == k) (mapSet rest k v) :=
        List.find?_cons_of_neg _ h
      rw [hstep]
      exact ih

/-- C2 (amended): identifiers are compared case-insensitively only in the
variant-to-gene mapping, which resolves a record whose identifier matches a
catalog rsid up to ASCII case and files one detected variant under that
mapping's gene; the allele-function-counting and diplotype re-lookups compare
identifiers exactly, so a detected variant whose identifier is not an exact
catalog rsid contributes nothing: the counters fall back to functional = 2,
the phenotype to NM, and the diplotype to the wildtype label — hence phenotype
and diplotype are not independent of the identifier's letter case. -/
theorem C2_case_sensitivity_amended :
    (∀ (rec : VCFRecord) (m : RSIDMapping), rec.id ≠ "" →
      RSID_MAPPING.find? (fun mm => strToLower mm.rsid == strToLower rec.id) = some m →
      ((mapGet (mapVariantsToGenes [rec] []) m.gene).getD []).map (fun v => v.rsid) =
        [rec.id]) ∧
    (∀ (v : DetectedVariant) (g : String),
      RSID_MAPPING.find? (fun m => m.rsid == v.rsid) = none → g ∈ TARGET_GENES →
      countAlleleFunctions [v] = ⟨2, 0, 0, 0⟩ ∧
      inferPhenotype g [v] = "NM" ∧
      inferDiplotype g [v] = (if g = "SLCO1B1" then "*1a/*1a" else "*1/*1")) := by
  constructor
  · intro rec m hid hfind
    unfold mapVariantsToGenes
    simp only [List.foldl_cons, List.foldl_nil]
    unfold mapVariantsStep
    rw [if_neg hid]
    simp only [hfind]
    have hm := List.mem_of_find?_eq_some hfind
    have hginit : mapGet (TARGET_GENES.map (fun g => (g, []))) m.gene = some [] := by
      have H : ∀ x ∈ RSID_MAPPING,
          mapGet (TARGET_GENES.map (fun g => (g, []))) x.gene = some [] := by decide
      exact H m hm
    rw [hginit, mapGet_mapSet]
    simp
  · intro v g hfind hg
    have hcount : countAlleleFunctions [v] = ⟨2, 0, 0, 0⟩ := by
      unfold countAlleleFunctions
      simp only [List.foldl_cons, List.foldl_nil]
      unfold variantStep
      rw [hfind]
      rfl
    refine ⟨hcount, ?_, ?_⟩
    · simp only [TARGET_GENES, List.mem_cons, List.not_mem_nil, or_false] at hg
      obtain rfl | rfl | rfl | rfl | rfl | rfl := hg <;>
        (unfold inferPhenotype; rw [if_neg (by simp), hcount]) <;> decide
    · unfold inferDiplotype
      rw [if_neg (by simp)]
      simp only [List.filterMap_cons, List.filterMap_nil, hfind]
      by_cases hsl : g = "SLCO1B1"
      · subst hsl
        decide
      · rw [if_neg hsl, if_neg hsl]
        decide

/-- Witness for C2 (amended): the record carrying `RS1799853` is filed under
CYP2C9 (case-insensitive mapping) but the exact re-lookup misses its rsid, so
the phenotype collapses to NM and the diplotype to `*1/*1`. -/
theorem C2_case_sensitivity_amended_witness :
    ((mapGet (mapVariantsToGenes
      [⟨"chr10", 96702047, "RS1799853", "C", "T", ".", "PASS", ".", "GT", "1/1", "T/T"⟩] [])
        "CYP2C9").getD []).map (fun v => v.rsid) = ["RS1799853"] ∧
    countAlleleFunctions [c2Variant] = ⟨2, 0, 0, 0⟩ ∧
    inferPhenotype "CYP2C9" [c2Variant] = "NM" ∧
    inferDiplotype "CYP2C9" [c2Variant] = "*1/*1" := by
  have h1 := C2_case_sensitivity_amended.1
    ⟨"chr10", 96702047, "RS1799853", "C", "T", ".", "PASS", ".", "GT", "1/1", "T/T"⟩
    ⟨"rs1799853", "CYP2C9", "C", "T", "*1", "*2", "reduced"⟩ (by decide) (by decide)
  have h2 := C2_case_sensitivity_amended.2 c2Variant "CYP2C9" (by decide) (by decide)
  exact ⟨h1, h2.1, h2.2.1, h2.2.2⟩
